import Mathlib

/-!
A verification development of the precondition-validation layer of the ARM
Compute Library, `arm_compute/core/Validate.h`.

The validators in that header are variadic template functions over tensor
pointers.  Here a tensor pointer (`const ITensor *`) is modelled as
`Option TensorInfo` (`none` = `nullptr`), a variadic pack as a `List`, and a
validator as a function into `Except Failure Unit`:

* a successful check returns `.ok ()`;
* a failing `ARM_COMPUTE_ERROR_ON_LOC` / `ARM_COMPUTE_ERROR_ON_LOC_MSG`
  invokes the Diagnostic Reporter, modelled as `.error (.reported e)` where
  `e` records the message handed to the reporter (for the raw `ERROR_ON_LOC`
  form the message is the stringified condition);
* dereferencing a null tensor pointer is undefined behaviour in the C++
  source and is modelled as the distinguished outcome `.error .nullDeref`.

The source-location triple `(function, file, line)` that every validator
threads through only decorates the diagnostic and never influences which
check fires, so it is omitted from the model.
-/

namespace ArmCompute

/-- Modelled from the spec: the compile-time maximum dimensionality of a
Dimension Vector (`Dimensions<T>::num_max_dimensions`, declared in
`Dimensions.h`, which is outside the given sources; the library fixes it
to 6).  None of the verified properties depend on the particular value. -/
def num_max_dimensions : Nat := 6

/-- A Dimension Vector: one size value per axis, `num_max_dimensions` axes
(`Dimensions<T>` backed by a fixed-size array). -/
structure Dimensions where
  dims : Fin num_max_dimensions → Nat

/-- `Dimensions<T>::operator[]`: read the size at axis `i`.  The source only
ever indexes axes below `num_max_dimensions`; out-of-range axes are given
the (never used) value 0 to keep the accessor total. -/
def Dimensions.get (d : Dimensions) (i : Nat) : Nat :=
  if h : i < num_max_dimensions then d.dims ⟨i, h⟩ else 0

/-- `detail::have_different_dimensions` (Validate.h:50-62): scan the axes
`upper_dim, upper_dim+1, ..., num_max_dimensions - 1` in order and report
`true` as soon as the two vectors differ on one of them. -/
def have_different_dimensions (dim1 dim2 : Dimensions) (upper_dim : Nat) : Bool :=
  (List.range' upper_dim (num_max_dimensions - upper_dim)).any
    (fun i => dim1.get i != dim2.get i)

lemma have_different_dimensions_eq_true_iff (dim1 dim2 : Dimensions) (upper_dim : Nat) :
    have_different_dimensions dim1 dim2 upper_dim = true ↔
      ∃ i, upper_dim ≤ i ∧ i < num_max_dimensions ∧ dim1.get i ≠ dim2.get i := by
  unfold have_different_dimensions
  rw [List.any_eq_true]
  constructor
  · rintro ⟨i, hi, hp⟩
    rw [List.mem_range'_1] at hi
    exact ⟨i, hi.1, by omega, by simpa using hp⟩
  · rintro ⟨i, h1, h2, h3⟩
    refine ⟨i, ?_, by simpa using h3⟩
    rw [List.mem_range'_1]
    omega

lemma have_different_dimensions_eq_false_iff (dim1 dim2 : Dimensions) (upper_dim : Nat) :
    have_different_dimensions dim1 dim2 upper_dim = false ↔
      ∀ i, upper_dim ≤ i → i < num_max_dimensions → dim1.get i = dim2.get i := by
  rw [← Bool.not_eq_true, have_different_dimensions_eq_true_iff]
  push_neg
  rfl

/-- Modelled from the spec: the library's tensor element data types
(`DataType` in `Types.h`, outside the given sources).  The validators only
distinguish `UNKNOWN`, the two fixed-point quantized kinds `QS8`/`QS16`,
and the element byte width, so the enumeration is reproduced with the
members those checks mention. -/
inductive DataType where
  | UNKNOWN
  | U8
  | S8
  | QS8
  | U16
  | S16
  | QS16
  | F16
  | U32
  | S32
  | F32
deriving DecidableEq, Repr

/-- Modelled from the spec: the pixel/plane formats (`Format` in `Types.h`,
outside the given sources); the verified checks only distinguish `UNKNOWN`
from the rest. -/
inductive Format where
  | UNKNOWN
  | U8
  | S16
  | RGB888
  | YUYV422
deriving DecidableEq, Repr

/-- Modelled from the spec: the image channel identifiers (`Channel` in
`Types.h`, outside the given sources); the verified checks only distinguish
`UNKNOWN` from the rest. -/
inductive Channel where
  | UNKNOWN
  | R
  | G
  | B
  | A
  | Y
  | U
  | V
deriving DecidableEq, Repr

/-- Modelled from the spec: `element_size_from_data_type` (`Utils.h`,
outside the given sources) returns the byte width of one element of the
given data type; the library fatals on `UNKNOWN`, modelled here as width 0
(no verified property evaluates it there). -/
def element_size_from_data_type : DataType → Nat
  | .UNKNOWN => 0
  | .U8 | .S8 | .QS8 => 1
  | .U16 | .S16 | .QS16 | .F16 => 2
  | .U32 | .S32 | .F32 => 4

/-- The tensor metadata reachable through `ITensor::info()`
(`ITensorInfo`), restricted to the accessors the verified validators read.
`fixed_point_position` is an `int` in the source; it counts fractional bits
(spec glossary) and is used as a left-shift amount, which would be undefined
behaviour for a negative value, so it is modelled as `Nat`. -/
structure TensorInfo where
  tensor_shape : Dimensions
  data_type : DataType
  format : Format
  fixed_point_position : Nat

/-- A `const ITensor *` operand: `none` is a null pointer. -/
def ITensorPtr : Type := Option TensorInfo

/-- The payload handed to the Diagnostic Reporter when a check fires.
`ARM_COMPUTE_ERROR_ON_LOC(cond, ...)` reports the stringified condition
(`locError`); `ARM_COMPUTE_ERROR_ON_LOC_MSG(cond, ..., msg)` reports the
explicit message (`locMsgError`). -/
inductive ArmError where
  | locError (cond : String)
  | locMsgError (msg : String)
deriving DecidableEq, Repr

/-- Outcome of a failing validator run: either the Diagnostic Reporter was
invoked with a payload, or the C++ source dereferenced a null tensor
pointer, which is undefined behaviour and is kept distinct from every
reported failure. -/
inductive Failure where
  | reported (e : ArmError)
  | nullDeref
deriving DecidableEq, Repr

/-- `ARM_COMPUTE_ERROR_ON_LOC(cond, function, file, line)`: report the
stringified condition iff `cond` holds. -/
def armErrorOnLoc (cond : Bool) (condText : String) : Except Failure Unit :=
  if cond then .error (.reported (.locError condText)) else .ok ()

/-- `ARM_COMPUTE_ERROR_ON_LOC_MSG(cond, function, file, line, msg)`: report
`msg` iff `cond` holds. -/
def armErrorOnLocMsg (cond : Bool) (msg : String) : Except Failure Unit :=
  if cond then .error (.reported (.locMsgError msg)) else .ok ()

/-- `tensor->info()`: dereference a tensor pointer; on a null pointer the
C++ behaviour is undefined (`nullDeref`). -/
def info : ITensorPtr → Except Failure TensorInfo
  | none => .error .nullDeref
  | some ti => .ok ti

/-- `std::any_of` over a range whose predicate may itself fail (the
lambdas inside the validators contain further checks): visit the elements
in order and stop at the first `true` or the first failure. -/
def any_of : List α → (α → Except Failure Bool) → Except Failure Bool
  | [], _ => .ok false
  | x :: xs, p => do
    let b ← p x
    if b then .ok true else any_of xs p

/-- `std::none_of` with a pure predicate. -/
def none_of (xs : List α) (p : α → Bool) : Bool :=
  !xs.any p

/-- The lambda of `error_on_mismatching_shapes` (Validate.h:238-242), a
closure capturing `tensors_array.cbegin()` (the first tensor pointer) and
`upper_dim`: null-check the visited tensor, then dereference the first
tensor (with no null check on it) and the visited tensor and compare their
shapes from `upper_dim`. -/
def mismatching_shapes_lambda (tensor_1 : ITensorPtr) (upper_dim : Nat)
    (tensor : ITensorPtr) : Except Failure Bool := do
  armErrorOnLoc tensor.isNone "tensor == nullptr"
  let first ← info tensor_1
  let ti ← info tensor
  pure (have_different_dimensions first.tensor_shape ti.tensor_shape upper_dim)

/-- `error_on_mismatching_shapes` (Validate.h:225-244).  The source builds
`tensors_array = { tensor_1, tensor_2, tensors... }` and then:
1. `ARM_COMPUTE_ERROR_ON_LOC(tensors_array.cbegin() == nullptr, ...)`.
   `cbegin()` is the iterator to the array's first slot — a pointer into
   the array object itself, never null — so the condition is constantly
   false and the check can never fire.
2. Over the elements after the first (`std::next(cbegin()) .. cend()`),
   fail with "Tensors have different shapes" if any tensor's shape differs
   from the first tensor's from `upper_dim`; the lambda null-checks the
   visited tensor, then dereferences the first tensor with no null check. -/
def error_on_mismatching_shapes (upper_dim : Nat) (tensor_1 tensor_2 : ITensorPtr)
    (tensors : List ITensorPtr) : Except Failure Unit := do
  armErrorOnLoc false "tensors_array.cbegin() == nullptr"
  let b ← any_of (tensor_2 :: tensors) (mismatching_shapes_lambda tensor_1 upper_dim)
  armErrorOnLocMsg b "Tensors have different shapes"

/-- `error_on_mismatching_shapes` overload without `upper_dim`
(Validate.h:208-213): forwards to the full overload with `0U`. -/
def error_on_mismatching_shapes_default (tensor_1 tensor_2 : ITensorPtr)
    (tensors : List ITensorPtr) : Except Failure Unit :=
  error_on_mismatching_shapes 0 tensor_1 tensor_2 tensors

/-- The lambda shared in shape by `error_on_mismatching_data_types`
(Validate.h:272-275) and `error_on_mismatching_fixed_point`
(Validate.h:315-318), capturing `first_data_type`: dereference the visited
tensor (no null check) and test whether its data type differs. -/
def data_type_differs_lambda (first_data_type : DataType) (tensor : ITensorPtr) :
    Except Failure Bool := do
  let ti ← info tensor
  pure (decide (ti.data_type ≠ first_data_type))

/-- The second lambda of `error_on_mismatching_fixed_point`
(Validate.h:321-324), capturing `first_fixed_point_position`: dereference
the visited tensor (no null check) and test whether its fixed-point
position differs. -/
def fixed_point_position_differs_lambda (first_fixed_point_position : Nat)
    (tensor : ITensorPtr) : Except Failure Bool := do
  let ti ← info tensor
  pure (decide (ti.fixed_point_position ≠ first_fixed_point_position))

/-- `error_on_mismatching_data_types` (Validate.h:256-277): read the first
tensor's data type (dereferencing `tensor_1` with no null check), then fail
with "Tensors have different data types" if `tensor_2`'s data type differs
or any tensor of the variadic tail's does (`||` evaluates left to right;
neither `tensor_2` nor the tail tensors are null-checked). -/
def error_on_mismatching_data_types (tensor_1 tensor_2 : ITensorPtr)
    (tensors : List ITensorPtr) : Except Failure Unit := do
  let info_1 ← info tensor_1
  let first_data_type := info_1.data_type
  let info_2 ← info tensor_2
  let b ←
    if info_2.data_type ≠ first_data_type then
      pure true
    else
      any_of tensors (data_type_differs_lambda first_data_type)
  armErrorOnLocMsg b "Tensors have different data types"

/-- `error_on_mismatching_fixed_point` (Validate.h:292-326): read the first
tensor's data type and fixed-point position; if the data type is neither
`QS8` nor `QS16`, return at once (the array of the remaining tensors is not
even built); otherwise fail if any remaining tensor's data type differs,
then fail if any remaining tensor's fixed-point position differs. -/
def error_on_mismatching_fixed_point (tensor_1 tensor_2 : ITensorPtr)
    (tensors : List ITensorPtr) : Except Failure Unit := do
  let info_1 ← info tensor_1
  let first_data_type := info_1.data_type
  let first_fixed_point_position := info_1.fixed_point_position
  if first_data_type ≠ DataType.QS8 ∧ first_data_type ≠ DataType.QS16 then
    pure ()
  else do
    let b1 ← any_of (tensor_2 :: tensors) (data_type_differs_lambda first_data_type)
    armErrorOnLocMsg b1 "Tensors have different fixed point data types"
    let b2 ← any_of (tensor_2 :: tensors)
      (fixed_point_position_differs_lambda first_fixed_point_position)
    armErrorOnLocMsg b2 "Tensors have different fixed point positions"

/-- `error_on_format_not_in` (Validate.h:339-358): null-check the object,
reject format `UNKNOWN`, then fail unless the object's format equals the
first candidate or some member of the allow-list.  (The source message
interpolates the format name through `string_from_format`; the constant
format string is kept.) -/
def error_on_format_not_in (object : ITensorPtr) (format : Format)
    (formats : List Format) : Except Failure Unit := do
  armErrorOnLoc object.isNone "object == nullptr"
  let oi ← info object
  let object_format := oi.format
  armErrorOnLoc (decide (object_format = Format.UNKNOWN)) "object_format == Format::UNKNOWN"
  armErrorOnLocMsg
    (decide (object_format ≠ format) && none_of formats fun f => decide (f = object_format))
    "Format %s not supported by this kernel"

/-- `error_on_data_type_not_in` (Validate.h:370-389): null-check the
tensor, reject data type `UNKNOWN`, then fail unless the tensor's data type
equals the first candidate or some member of the allow-list. -/
def error_on_data_type_not_in (tensor : ITensorPtr) (dt : DataType)
    (dts : List DataType) : Except Failure Unit := do
  armErrorOnLoc tensor.isNone "tensor == nullptr"
  let ti ← info tensor
  let tensor_dt := ti.data_type
  armErrorOnLoc (decide (tensor_dt = DataType.UNKNOWN)) "tensor_dt == DataType::UNKNOWN"
  armErrorOnLocMsg
    (decide (tensor_dt ≠ dt) && none_of dts fun d => decide (d = tensor_dt))
    "ITensor data type %s not supported by this kernel"

/-- `error_on_channel_not_in` (Validate.h:435-448): reject channel
`UNKNOWN`, then fail (raw, no message) unless the input channel equals the
first candidate or some member of the allow-list. -/
def error_on_channel_not_in (cn : Channel) (channel : Channel)
    (channels : List Channel) : Except Failure Unit := do
  armErrorOnLoc (decide (cn = Channel.UNKNOWN)) "cn == Channel::UNKNOWN"
  armErrorOnLoc (decide (channel ≠ cn) && none_of channels fun f => decide (f = cn))
    "channel != cn && std::none_of(channels_array.begin(), channels_array.end(), ...)"

/-- Local `q_max_range` of `error_on_value_not_representable_in_fixed_point`
(Validate.h:554): `0xFFFFFFFFu >> (((sizeof(unsigned int) -
element_size_from_data_type(dt)) * 8) + 1)` with `sizeof(unsigned int) = 4`:
the maximum positive value of a signed two's-complement integer of the data
type's byte width. -/
def q_max_range (dt : DataType) : Nat :=
  0xFFFFFFFF >>> ((4 - element_size_from_data_type dt) * 8 + 1)

/-- Local `max_range` of `error_on_value_not_representable_in_fixed_point`
(Validate.h:555): `q_max_range / static_cast<float>(1 << fixed_point_position)`.
Floating-point values are modelled as exact rationals; for the fixed-point
data types (element width 1 or 2 bytes) `q_max_range` has at most 15
significant bits and the divisor is a power of two, so the `float`
arithmetic of the source is exact and the rational model agrees with it. -/
def max_range (ti : TensorInfo) : ℚ :=
  (q_max_range ti.data_type : ℚ) / ((1 <<< ti.fixed_point_position : Nat) : ℚ)

/-- The bound as the spec words it (spec section 4.4): the maximum
representable magnitude `((1 << (8*element_bytes - 1)) - 1) / 2^fractional_bits`.
Stated separately from `max_range` (which is translated from the source) so
the two can be compared. -/
def spec_fixed_point_bound (element_bytes fractional_bits : Nat) : ℚ :=
  (((1 <<< (8 * element_bytes - 1)) - 1 : Nat) : ℚ) / (2 ^ fractional_bits : ℚ)

/-- `error_on_value_not_representable_in_fixed_point` (Validate.h:548-561):
dereference the tensor (no null check) and fail iff `value > max_range`. -/
def error_on_value_not_representable_in_fixed_point (value : ℚ)
    (tensor : ITensorPtr) : Except Failure Unit := do
  let ti ← info tensor
  armErrorOnLocMsg (decide (value > max_range ti))
    "Value %f is not representable in %s with fixed-point position %d"

/-! ### Concrete fixtures -/

/-- A quantized 8-bit tensor with fixed-point position 4 (the spec's
representability example, spec section 8). -/
def qs8_fp4 : TensorInfo := ⟨⟨fun _ => 1⟩, .QS8, .U8, 4⟩

/-- A plain unsigned 8-bit tensor. -/
def u8_tensor : TensorInfo := ⟨⟨fun _ => 1⟩, .U8, .U8, 0⟩

/-- A Dimension Vector holding `0, 1, 2, 3, 4, 5`. -/
def dimsA : Dimensions := ⟨fun i => i.val⟩

/-- A Dimension Vector holding `1, 2, 3, 4, 5, 6`: different from `dimsA`
on every axis. -/
def dimsB : Dimensions := ⟨fun i => i.val + 1⟩

/-- A tensor with shape `dimsA`. -/
def tensorA : TensorInfo := ⟨dimsA, .U8, .U8, 0⟩

/-- A tensor with shape `dimsB`. -/
def tensorB : TensorInfo := ⟨dimsB, .U8, .U8, 0⟩

/-! ### Helper lemmas -/

lemma armErrorOnLocMsg_eq_ok_iff (b : Bool) (msg : String) :
    armErrorOnLocMsg b msg = .ok () ↔ b = false := by
  cases b <;> simp [armErrorOnLocMsg]

lemma any_of_map_some (p : TensorInfo → Bool) (f : ITensorPtr → Except Failure Bool)
    (hf : ∀ ti, f (some ti) = .ok (p ti)) :
    ∀ ts : List TensorInfo, any_of (ts.map some) f = .ok (ts.any p)
  | [] => rfl
  | t :: ts => by
    have ih := any_of_map_some p f hf ts
    simp only [List.map_cons, any_of, hf t, Bind.bind, Except.bind]
    by_cases h : p t
    · simp [h]
    · simp [h, ih, List.any_cons]

lemma mismatching_shapes_lambda_some (i1 ti : TensorInfo) (upper_dim : Nat) :
    mismatching_shapes_lambda (some i1) upper_dim (some ti) =
      .ok (have_different_dimensions i1.tensor_shape ti.tensor_shape upper_dim) := rfl

lemma data_type_differs_lambda_some (dt : DataType) (ti : TensorInfo) :
    data_type_differs_lambda dt (some ti) = .ok (decide (ti.data_type ≠ dt)) := rfl

lemma fixed_point_position_differs_lambda_some (fpp : Nat) (ti : TensorInfo) :
    fixed_point_position_differs_lambda fpp (some ti) =
      .ok (decide (ti.fixed_point_position ≠ fpp)) := rfl

lemma error_on_mismatching_shapes_all_some (upper_dim : Nat) (i1 i2 : TensorInfo)
    (ts : List TensorInfo) :
    error_on_mismatching_shapes upper_dim (some i1) (some i2) (ts.map some) =
      armErrorOnLocMsg
        ((i2 :: ts).any fun t =>
          have_different_dimensions i1.tensor_shape t.tensor_shape upper_dim)
        "Tensors have different shapes" := by
  have h := any_of_map_some
    (fun t => have_different_dimensions i1.tensor_shape t.tensor_shape upper_dim)
    (mismatching_shapes_lambda (some i1) upper_dim)
    (fun ti => rfl) (i2 :: ts)
  calc error_on_mismatching_shapes upper_dim (some i1) (some i2) (ts.map some)
      = Except.bind
          (any_of ((i2 :: ts).map some) (mismatching_shapes_lambda (some i1) upper_dim))
          (fun b => armErrorOnLocMsg b "Tensors have different shapes") := rfl
    _ = _ := by rw [h]; rfl

lemma error_on_mismatching_shapes_all_some_eq_ok_iff (upper_dim : Nat)
    (i1 i2 : TensorInfo) (ts : List TensorInfo) :
    error_on_mismatching_shapes upper_dim (some i1) (some i2) (ts.map some) = .ok () ↔
      ∀ t ∈ i2 :: ts,
        have_different_dimensions i1.tensor_shape t.tensor_shape upper_dim = false := by
  rw [error_on_mismatching_shapes_all_some, armErrorOnLocMsg_eq_ok_iff]
  simp [List.any_eq_false]

lemma error_on_mismatching_fixed_point_quantized (i1 i2 : TensorInfo)
    (ts : List TensorInfo) (h : i1.data_type = .QS8 ∨ i1.data_type = .QS16) :
    error_on_mismatching_fixed_point (some i1) (some i2) (ts.map some) =
      if (i2 :: ts).any (fun t => decide (t.data_type ≠ i1.data_type)) then
        .error (.reported (.locMsgError "Tensors have different fixed point data types"))
      else if (i2 :: ts).any
          (fun t => decide (t.fixed_point_position ≠ i1.fixed_point_position)) then
        .error (.reported (.locMsgError "Tensors have different fixed point positions"))
      else .ok () := by
  have hc : ¬(i1.data_type ≠ DataType.QS8 ∧ i1.data_type ≠ DataType.QS16) := by
    rcases h with h | h <;> simp [h]
  have h1 := any_of_map_some (fun t => decide (t.data_type ≠ i1.data_type))
    (data_type_differs_lambda i1.data_type) (fun ti => rfl) (i2 :: ts)
  have h2 := any_of_map_some (fun t => decide (t.fixed_point_position ≠ i1.fixed_point_position))
    (fixed_point_position_differs_lambda i1.fixed_point_position) (fun ti => rfl) (i2 :: ts)
  calc error_on_mismatching_fixed_point (some i1) (some i2) (ts.map some)
      = if i1.data_type ≠ DataType.QS8 ∧ i1.data_type ≠ DataType.QS16 then
          pure ()
        else
          Except.bind
            (any_of ((i2 :: ts).map some) (data_type_differs_lambda i1.data_type))
            (fun b1 => Except.bind
              (armErrorOnLocMsg b1 "Tensors have different fixed point data types")
              (fun _ => Except.bind
                (any_of ((i2 :: ts).map some)
                  (fixed_point_position_differs_lambda i1.fixed_point_position))
                (fun b2 =>
                  armErrorOnLocMsg b2 "Tensors have different fixed point positions"))) := rfl
    _ = _ := by
        rw [if_neg hc, h1, h2]
        cases hb1 : (i2 :: ts).any (fun t => decide (t.data_type ≠ i1.data_type)) <;>
          cases hb2 : (i2 :: ts).any
            (fun t => decide (t.fixed_point_position ≠ i1.fixed_point_position)) <;>
          rfl

lemma error_on_mismatching_fixed_point_short_circuit (i1 : TensorInfo)
    (h8 : i1.data_type ≠ .QS8) (h16 : i1.data_type ≠ .QS16)
    (tensor_2 : ITensorPtr) (tensors : List ITensorPtr) :
    error_on_mismatching_fixed_point (some i1) tensor_2 tensors = .ok () := by
  calc error_on_mismatching_fixed_point (some i1) tensor_2 tensors
      = if i1.data_type ≠ DataType.QS8 ∧ i1.data_type ≠ DataType.QS16 then
          (pure () : Except Failure Unit)
        else
          Except.bind
            (any_of (tensor_2 :: tensors) (data_type_differs_lambda i1.data_type))
            (fun b1 => Except.bind
              (armErrorOnLocMsg b1 "Tensors have different fixed point data types")
              (fun _ => Except.bind
                (any_of (tensor_2 :: tensors)
                  (fixed_point_position_differs_lambda i1.fixed_point_position))
                (fun b2 =>
                  armErrorOnLocMsg b2 "Tensors have different fixed point positions"))) := rfl
    _ = pure () := if_pos ⟨h8, h16⟩
    _ = .ok () := rfl

lemma q_max_range_eq (dt : DataType) (h : dt ≠ .UNKNOWN) :
    q_max_range dt = (1 <<< (8 * element_size_from_data_type dt - 1)) - 1 := by
  cases dt
  · exact absurd rfl h
  all_goals rfl

lemma max_range_eq_spec (ti : TensorInfo) (h : ti.data_type ≠ .UNKNOWN) :
    max_range ti =
      spec_fixed_point_bound (element_size_from_data_type ti.data_type)
        ti.fixed_point_position := by
  unfold max_range spec_fixed_point_bound
  rw [q_max_range_eq ti.data_type h]
  simp only [Nat.one_shiftLeft, Nat.cast_pow]
  norm_num

lemma error_on_value_not_representable_eq (value : ℚ) (ti : TensorInfo) :
    error_on_value_not_representable_in_fixed_point value (some ti) =
      armErrorOnLocMsg (decide (value > max_range ti))
        "Value %f is not representable in %s with fixed-point position %d" := rfl

lemma error_on_value_not_representable_eq_ok_iff (value : ℚ) (ti : TensorInfo) :
    error_on_value_not_representable_in_fixed_point value (some ti) = .ok () ↔
      value ≤ max_range ti := by
  rw [error_on_value_not_representable_eq, armErrorOnLocMsg_eq_ok_iff,
    decide_eq_false_iff_not, not_lt]

lemma max_range_qs8_fp4 : max_range qs8_fp4 = 127 / 16 := by
  simp [max_range, q_max_range, qs8_fp4, element_size_from_data_type]

lemma error_on_data_type_not_in_some (ti : TensorInfo) (dt : DataType)
    (dts : List DataType) :
    error_on_data_type_not_in (some ti) dt dts =
      if ti.data_type = DataType.UNKNOWN then
        .error (.reported (.locError "tensor_dt == DataType::UNKNOWN"))
      else if decide (ti.data_type ≠ dt) && none_of dts (fun d => decide (d = ti.data_type)) then
        .error (.reported (.locMsgError "ITensor data type %s not supported by this kernel"))
      else .ok () := by
  have e : error_on_data_type_not_in (some ti) dt dts =
      Except.bind
        (armErrorOnLoc (decide (ti.data_type = DataType.UNKNOWN))
          "tensor_dt == DataType::UNKNOWN")
        (fun _ =>
          armErrorOnLocMsg
            (decide (ti.data_type ≠ dt) && none_of dts fun d => decide (d = ti.data_type))
            "ITensor data type %s not supported by this kernel") := rfl
  by_cases hu : ti.data_type = DataType.UNKNOWN
  · rw [e, decide_eq_true hu, if_pos hu]
    rfl
  · rw [e, decide_eq_false hu, if_neg hu]
    rfl

lemma data_type_match_iff (ti : TensorInfo) (dt : DataType) (dts : List DataType) :
    (decide (ti.data_type ≠ dt) && none_of dts (fun d => decide (d = ti.data_type))) = false ↔
      ti.data_type = dt ∨ ti.data_type ∈ dts := by
  constructor
  · intro h
    rcases Bool.and_eq_false_iff.mp h with h1 | h2
    · exact Or.inl (of_not_not (decide_eq_false_iff_not.mp h1))
    · refine Or.inr ?_
      have hany : (dts.any fun d => decide (d = ti.data_type)) = true := by
        cases hv : dts.any fun d => decide (d = ti.data_type)
        · rw [none_of, hv] at h2
          exact absurd h2 (by simp)
        · rfl
      obtain ⟨d, hd, he⟩ := List.any_eq_true.mp hany
      exact (of_decide_eq_true he) ▸ hd
  · intro h
    rw [Bool.and_eq_false_iff]
    rcases h with h | h
    · exact Or.inl (decide_eq_false (not_not_intro h))
    · refine Or.inr ?_
      rw [none_of]
      have : (dts.any fun d => decide (d = ti.data_type)) = true :=
        List.any_eq_true.mpr ⟨ti.data_type, h, decide_eq_true rfl⟩
      rw [this]
      rfl

/-! ### Claim theorems -/

/-- C1: the claim states that a null operand pointer always produces a
null-pointer failure before any other check, and in particular that a null
first operand is rejected rather than dereferenced.  The code does not do
this: in `error_on_mismatching_shapes` the only test against `nullptr`
compares the array iterator `tensors_array.cbegin()` (never null) instead
of the first tensor, which is then dereferenced inside the comparison
lambda; `error_on_mismatching_data_types` dereferences `tensor_1` with no
null check at all.  With a null first operand and a valid second operand,
both validators dereference the null pointer (undefined behaviour) instead
of reporting the null-pointer failure. -/
theorem null_first_operand_is_dereferenced_not_reported :
    error_on_mismatching_shapes 0 none (some u8_tensor) [] = .error Failure.nullDeref
    ∧ error_on_mismatching_data_types none (some u8_tensor) [] = .error Failure.nullDeref
    ∧ Failure.nullDeref ≠ Failure.reported (ArmError.locError "tensor == nullptr") :=
  ⟨rfl, rfl, by decide⟩

/-- C2: `error_on_value_not_representable_in_fixed_point` computes the
bound `((1 << (8*element_bytes - 1)) - 1) / 2^fixed_point_position` and
fails iff the value exceeds it; for an 8-bit element with fixed-point
position 4 the bound is `127/16 = 7.9375`, so `7.9` passes and `8.0`
fails. -/
theorem value_not_representable_bound_and_examples :
    (∀ (value : ℚ) (ti : TensorInfo), ti.data_type ≠ DataType.UNKNOWN →
      (error_on_value_not_representable_in_fixed_point value (some ti) = .ok () ↔
        value ≤ spec_fixed_point_bound (element_size_from_data_type ti.data_type)
          ti.fixed_point_position))
    ∧ spec_fixed_point_bound 1 4 = 127 / 16
    ∧ error_on_value_not_representable_in_fixed_point (79 / 10) (some qs8_fp4) = .ok ()
    ∧ error_on_value_not_representable_in_fixed_point 8 (some qs8_fp4) =
        .error (.reported (.locMsgError
          "Value %f is not representable in %s with fixed-point position %d")) := by
  refine ⟨?_, ?_, ?_, ?_⟩
  · intro value ti h
    rw [error_on_value_not_representable_eq_ok_iff, max_range_eq_spec ti h]
  · simp [spec_fixed_point_bound]
    norm_num
  · rw [error_on_value_not_representable_eq_ok_iff, max_range_qs8_fp4]
    norm_num
  · rw [error_on_value_not_representable_eq]
    have hgt : (127 / 16 : ℚ) < 8 := by norm_num
    rw [max_range_qs8_fp4]
    rw [show decide ((8 : ℚ) > 127 / 16) = true from decide_eq_true hgt]
    rfl

/-- C3: `error_on_mismatching_fixed_point` returns without failure and
without inspecting any other operand when the first operand's data type is
neither `QS8` nor `QS16` (here the other operands may even be null
pointers); otherwise it fails iff some other operand's data type or
fixed-point position differs from the first operand's. -/
theorem mismatching_fixed_point_short_circuit_and_iff :
    (∀ (i1 : TensorInfo), i1.data_type ≠ .QS8 → i1.data_type ≠ .QS16 →
      ∀ (tensor_2 : ITensorPtr) (tensors : List ITensorPtr),
        error_on_mismatching_fixed_point (some i1) tensor_2 tensors = .ok ())
    ∧ (∀ (i1 i2 : TensorInfo) (ts : List TensorInfo),
        (i1.data_type = .QS8 ∨ i1.data_type = .QS16) →
        (error_on_mismatching_fixed_point (some i1) (some i2) (ts.map some) ≠ .ok () ↔
          ∃ t ∈ i2 :: ts, t.data_type ≠ i1.data_type ∨
            t.fixed_point_position ≠ i1.fixed_point_position)) := by
  constructor
  · intro i1 h8 h16 t2 ts
    exact error_on_mismatching_fixed_point_short_circuit i1 h8 h16 t2 ts
  · intro i1 i2 ts h
    rw [error_on_mismatching_fixed_point_quantized i1 i2 ts h]
    cases hb1 : (i2 :: ts).any (fun t => decide (t.data_type ≠ i1.data_type)) <;>
      cases hb2 : (i2 :: ts).any
        (fun t => decide (t.fixed_point_position ≠ i1.fixed_point_position))
    · rw [List.any_eq_false] at hb1 hb2
      simp only [Bool.false_eq_true, if_false, ne_eq, not_true_eq_false, false_iff]
      rintro ⟨t, ht, hcase⟩
      rcases hcase with hc | hc
      · exact absurd (decide_eq_true hc) (hb1 t ht)
      · exact absurd (decide_eq_true hc) (hb2 t ht)
    · obtain ⟨t, ht, he⟩ := List.any_eq_true.mp hb2
      simp only [Bool.false_eq_true, if_false, if_true]
      constructor
      · intro _
        exact ⟨t, ht, Or.inr (of_decide_eq_true he)⟩
      · intro _
        simp
    · obtain ⟨t, ht, he⟩ := List.any_eq_true.mp hb1
      simp only [if_true]
      constructor
      · intro _
        exact ⟨t, ht, Or.inl (of_decide_eq_true he)⟩
      · intro _
        simp
    · obtain ⟨t, ht, he⟩ := List.any_eq_true.mp hb1
      simp only [if_true]
      constructor
      · intro _
        exact ⟨t, ht, Or.inl (of_decide_eq_true he)⟩
      · intro _
        simp

/-- C4: `error_on_mismatching_shapes` compares the first operand's shape
against every remaining operand's shape with `have_different_dimensions`
from the caller-supplied `upper_dim` (the overload without `upper_dim`
forwards 0), and passes whenever every remaining operand's shape agrees
with the first from `upper_dim` on — in particular for any two tensors
whose shapes agree per axis from `upper_dim` to the maximum
dimensionality, for every `upper_dim`. -/
theorem mismatching_shapes_default_and_pass :
    (∀ (tensor_1 tensor_2 : ITensorPtr) (tensors : List ITensorPtr),
      error_on_mismatching_shapes_default tensor_1 tensor_2 tensors =
        error_on_mismatching_shapes 0 tensor_1 tensor_2 tensors)
    ∧ (∀ (upper_dim : Nat) (i1 i2 : TensorInfo) (ts : List TensorInfo),
        (error_on_mismatching_shapes upper_dim (some i1) (some i2) (ts.map some) = .ok () ↔
          ∀ t ∈ i2 :: ts,
            have_different_dimensions i1.tensor_shape t.tensor_shape upper_dim = false))
    ∧ (∀ (upper_dim : Nat) (i1 i2 : TensorInfo),
        (∀ i, upper_dim ≤ i → i < num_max_dimensions →
          i1.tensor_shape.get i = i2.tensor_shape.get i) →
        error_on_mismatching_shapes upper_dim (some i1) (some i2) [] = .ok ()) := by
  refine ⟨fun _ _ _ => rfl, ?_, ?_⟩
  · exact error_on_mismatching_shapes_all_some_eq_ok_iff
  · intro upper_dim i1 i2 heq
    rw [show ([] : List ITensorPtr) = ([] : List TensorInfo).map some from rfl,
      error_on_mismatching_shapes_all_some_eq_ok_iff]
    intro t ht
    have : t = i2 := by simpa using ht
    subst this
    rw [have_different_dimensions_eq_false_iff]
    exact heq

/-- C5: `error_on_data_type_not_in` fails on data type `UNKNOWN`, and
otherwise fails iff the data type equals neither the first candidate nor
any element of the allow-list; a match on the first candidate passes, and
a non-`UNKNOWN` non-match raises the data-type message — a failure value
distinct from the null-pointer failure and from the numeric-range
failure. -/
theorem data_type_not_in_characterisation :
    (∀ (ti : TensorInfo) (dt : DataType) (dts : List DataType), ti.data_type = .UNKNOWN →
      error_on_data_type_not_in (some ti) dt dts =
        .error (.reported (.locError "tensor_dt == DataType::UNKNOWN")))
    ∧ (∀ (ti : TensorInfo) (dt : DataType) (dts : List DataType),
        ti.data_type ≠ .UNKNOWN →
        (error_on_data_type_not_in (some ti) dt dts = .ok () ↔
          (ti.data_type = dt ∨ ti.data_type ∈ dts)))
    ∧ (∀ (ti : TensorInfo) (dt : DataType) (dts : List DataType),
        ti.data_type ≠ .UNKNOWN → ti.data_type = dt →
        error_on_data_type_not_in (some ti) dt dts = .ok ())
    ∧ (∀ (ti : TensorInfo) (dt : DataType) (dts : List DataType),
        ti.data_type ≠ .UNKNOWN → ti.data_type ≠ dt → ti.data_type ∉ dts →
        error_on_data_type_not_in (some ti) dt dts =
          .error (.reported
            (.locMsgError "ITensor data type %s not supported by this kernel")))
    ∧ ArmError.locMsgError "ITensor data type %s not supported by this kernel" ≠
        ArmError.locError "tensor == nullptr"
    ∧ ArmError.locMsgError "ITensor data type %s not supported by this kernel" ≠
        ArmError.locMsgError
          "Value %f is not representable in %s with fixed-point position %d" := by
  have hok : ∀ (ti : TensorInfo) (dt : DataType) (dts : List DataType),
      ti.data_type ≠ .UNKNOWN →
      (error_on_data_type_not_in (some ti) dt dts = .ok () ↔
        (ti.data_type = dt ∨ ti.data_type ∈ dts)) := by
    intro ti dt dts h
    rw [error_on_data_type_not_in_some, if_neg h, ← data_type_match_iff ti dt dts]
    cases hv : decide (ti.data_type ≠ dt) && none_of dts fun d => decide (d = ti.data_type) <;>
      simp
  refine ⟨?_, hok, ?_, ?_, by decide, by decide⟩
  · intro ti dt dts h
    rw [error_on_data_type_not_in_some, if_pos h]
  · intro ti dt dts h hdt
    exact (hok ti dt dts h).mpr (Or.inl hdt)
  · intro ti dt dts h hdt hmem
    rw [error_on_data_type_not_in_some, if_neg h, if_pos]
    cases hv : decide (ti.data_type ≠ dt) && none_of dts fun d => decide (d = ti.data_type)
    · exact absurd (data_type_match_iff ti dt dts |>.mp hv)
        (by rintro (hc | hc); exact hdt hc; exact hmem hc)
    · rfl

/-- C6: `have_different_dimensions dim1 dim2 upper_dim` returns `true` iff
some axis `i` with `upper_dim ≤ i < num_max_dimensions` differs between
the two Dimension Vectors; axes before `upper_dim` are ignored.  (The
function is a pure Lean definition, so it has no side effects.) -/
theorem have_different_dimensions_spec (dim1 dim2 : Dimensions) (upper_dim : Nat) :
    have_different_dimensions dim1 dim2 upper_dim = true ↔
      ∃ i, upper_dim ≤ i ∧ i < num_max_dimensions ∧ dim1.get i ≠ dim2.get i :=
  have_different_dimensions_eq_true_iff dim1 dim2 upper_dim

/-- C7: the dimension comparator is reflexive (`compare(a, a, u)` is
false) and symmetric (`compare(a, b, u) = compare(b, a, u)`). -/
theorem have_different_dimensions_refl_symm :
    (∀ (a : Dimensions) (u : Nat), have_different_dimensions a a u = false)
    ∧ (∀ (a b : Dimensions) (u : Nat),
        have_different_dimensions a b u = have_different_dimensions b a u) := by
  constructor
  · intro a u
    rw [have_different_dimensions_eq_false_iff]
    intro i _ _
    rfl
  · intro a b u
    rw [Bool.eq_iff_iff, have_different_dimensions_eq_true_iff,
      have_different_dimensions_eq_true_iff]
    constructor <;> rintro ⟨i, h1, h2, h3⟩ <;> exact ⟨i, h1, h2, fun e => h3 e.symm⟩

/-- C8: `error_on_value_not_representable_in_fixed_point` rejects only
values strictly greater than the computed bound: every value less than or
equal to `max_range` — a value exactly equal to it, or a negative value of
arbitrarily large magnitude — passes; the comparison is on the signed
value, not its absolute value. -/
theorem value_le_max_range_passes (value : ℚ) (ti : TensorInfo)
    (h : value ≤ max_range ti) :
    error_on_value_not_representable_in_fixed_point value (some ti) = .ok () :=
  (error_on_value_not_representable_eq_ok_iff value ti).mpr h

/-- Witness for C8: the huge-magnitude negative value `-1000` and the
value exactly at the bound `127/16` both pass for the 8-bit fixed-point
tensor with position 4. -/
theorem value_le_max_range_passes_witness :
    ((-1000 : ℚ) ≤ max_range qs8_fp4 ∧
      error_on_value_not_representable_in_fixed_point (-1000) (some qs8_fp4) = .ok ())
    ∧ ((127 / 16 : ℚ) ≤ max_range qs8_fp4 ∧
      error_on_value_not_representable_in_fixed_point (127 / 16) (some qs8_fp4) =
        .ok ()) := by
  have h1 : (-1000 : ℚ) ≤ max_range qs8_fp4 := by rw [max_range_qs8_fp4]; norm_num
  have h2 : (127 / 16 : ℚ) ≤ max_range qs8_fp4 := le_of_eq max_range_qs8_fp4.symm
  exact ⟨⟨h1, value_le_max_range_passes (-1000) qs8_fp4 h1⟩,
    ⟨h2, value_le_max_range_passes (127 / 16) qs8_fp4 h2⟩⟩

/-- C9: in `error_on_data_type_not_in`, `error_on_format_not_in` and
`error_on_channel_not_in`, an `UNKNOWN` input is rejected before the
allow-list membership test, for every allow-list — including one that
explicitly lists `UNKNOWN` (the stricter always-invalid reading). -/
theorem unknown_rejected_before_allow_list :
    (∀ (ti : TensorInfo) (dt : DataType) (dts : List DataType), ti.data_type = .UNKNOWN →
      error_on_data_type_not_in (some ti) dt dts =
        .error (.reported (.locError "tensor_dt == DataType::UNKNOWN")))
    ∧ (∀ (ti : TensorInfo) (f : Format) (fs : List Format), ti.format = .UNKNOWN →
      error_on_format_not_in (some ti) f fs =
        .error (.reported (.locError "object_format == Format::UNKNOWN")))
    ∧ (∀ (channel : Channel) (channels : List Channel),
      error_on_channel_not_in .UNKNOWN channel channels =
        .error (.reported (.locError "cn == Channel::UNKNOWN"))) := by
  refine ⟨?_, ?_, fun _ _ => rfl⟩
  · intro ti dt dts h
    rw [error_on_data_type_not_in_some, if_pos h]
  · intro ti f fs h
    have e : error_on_format_not_in (some ti) f fs =
        Except.bind
          (armErrorOnLoc (decide (ti.format = Format.UNKNOWN))
            "object_format == Format::UNKNOWN")
          (fun _ =>
            armErrorOnLocMsg
              (decide (ti.format ≠ f) && none_of fs fun g => decide (g = ti.format))
              "Format %s not supported by this kernel") := rfl
    rw [e, decide_eq_true h]
    rfl

/-- C10: for every pair of Dimension Vectors and every
`upper_dim ≥ num_max_dimensions` the comparison range is empty, so
`have_different_dimensions` returns `false` and the shape-mismatch check
passes for every pair (indeed every list) of tensors, however different
their shapes. -/
theorem upper_dim_ge_max_shapes_pass (dim1 dim2 : Dimensions) (u : Nat)
    (h : num_max_dimensions ≤ u) (i1 i2 : TensorInfo) (ts : List TensorInfo) :
    have_different_dimensions dim1 dim2 u = false ∧
      error_on_mismatching_shapes u (some i1) (some i2) (ts.map some) = .ok () := by
  have hdd : ∀ (a b : Dimensions), have_different_dimensions a b u = false := by
    intro a b
    rw [have_different_dimensions_eq_false_iff]
    intro i hi hlt
    omega
  refine ⟨hdd dim1 dim2, ?_⟩
  rw [error_on_mismatching_shapes_all_some_eq_ok_iff]
  intro t _
  exact hdd _ _

/-- Witness for C10: `dimsA` and `dimsB` differ on every axis, yet with
`upper_dim = 6 = num_max_dimensions` the comparator reports no difference
and the shape-mismatch check passes. -/
theorem upper_dim_ge_max_shapes_pass_witness :
    num_max_dimensions ≤ 6 ∧
      (have_different_dimensions dimsA dimsB 6 = false ∧
        error_on_mismatching_shapes 6 (some tensorA) (some tensorB) [] = .ok ()) :=
  ⟨by decide, upper_dim_ge_max_shapes_pass dimsA dimsB 6 (by decide) tensorA tensorB []⟩

end ArmCompute
